import Mathlib

/-!
Shallow embedding of the DDR5/LPDDR5 power-estimation tool
(`ddr5_power_tool`: `spec_parser.py`, `workload_parser.py`,
`state_machine.py`, `power_calculator.py`, `simulator.py`).

Python floats are modelled as exact rationals (`ℚ`); Python dataclasses
become structures; the in-place mutation of the state machine and of the
power calculator becomes explicit state passing.  Error-message strings
are modelled as an inductive type carrying the same numeric payloads the
f-strings interpolate, so distinct source messages map to distinct values.
The bank dictionary keyed by `(rank, bank)` (inserted in row-major order
`rank * nbr_of_banks + bank`) is modelled as a list indexed the same way;
an out-of-range access, a `KeyError` programming fault in the source, is
modelled by `getD`/`set` (claims only exercise in-range indices).
-/

namespace DDR5

/-- Power parameters of `spec_parser.MemoryPowerSpec` (currents in mA,
voltages in V). -/
structure MemoryPowerSpec where
  idd0 : ℚ
  idd2n : ℚ
  idd2p : ℚ
  idd3n : ℚ
  idd3p : ℚ
  idd4r : ℚ
  idd4w : ℚ
  idd5b : ℚ
  idd6 : ℚ
  vdd : ℚ
  vddq : ℚ
  vddca : ℚ
  ipp : ℚ := 1/2
  temperature : ℚ := 50
  deriving DecidableEq

/-- Timing parameters of `spec_parser.MemoryTimingSpec` (ns).  `trc` keeps
the optional raw field; `__post_init__`'s defaulting is `trc_value`. -/
structure MemoryTimingSpec where
  tck : ℚ
  tras : ℚ
  trp : ℚ
  trcd : ℚ
  trfc : ℚ
  trfcpb : Option ℚ := none
  trfi : ℚ := 7800
  twr : ℚ := 15
  twtr : ℚ := 15/2
  trrd : ℚ := 47/10
  tfaw : ℚ := 55/4
  trc : Option ℚ := none
  txp : ℚ := 5
  txsdr : ℚ := 70
  txsdll : ℚ := 512
  deriving DecidableEq

/-- The row-cycle value every later read of `spec.timing.trc` observes:
`__post_init__` sets `trc = tras + trp` when it was not provided. -/
def MemoryTimingSpec.trc_value (t : MemoryTimingSpec) : ℚ :=
  t.trc.getD (t.tras + t.trp)

/-- Architecture parameters of `spec_parser.ArchitectureSpec`. -/
structure ArchitectureSpec where
  nbr_of_ranks : Nat
  nbr_of_banks : Nat
  nbr_of_columns : Nat
  nbr_of_rows : Nat
  width : Nat
  burst_length : Nat
  density : Nat
  refresh_mode : String := "all-bank"
  deriving DecidableEq

/-- Model of `spec_parser.MemorySpec`. -/
structure MemorySpec where
  power : MemoryPowerSpec
  timing : MemoryTimingSpec
  architecture : ArchitectureSpec
  deriving DecidableEq

/-- Model of `workload_parser.CommandType`. -/
inductive CommandType where
  | ACT
  | RD
  | WR
  | PRE
  | PREA
  | REF
  | REFPB
  | PDN
  | SR
  | END_OF_SIMULATION
  deriving DecidableEq, Repr

/-- Model of `workload_parser.Command` (timestamp in clock cycles). -/
structure Command where
  timestamp : Int
  command : CommandType
  bank : Option Nat := none
  rank : Option Nat := none
  row : Option Nat := none
  column : Option Nat := none
  burst_length : Option Nat := none
  deriving DecidableEq

/-- Model of `state_machine.BankState`. -/
inductive BankState where
  | IDLE
  | ACTIVE
  | ACTIVE_PDN
  | PRE_PDN
  | REFRESHING
  deriving DecidableEq, Repr

/-- Model of `state_machine.BankStateInfo` (all times in ns). -/
structure BankStateInfo where
  state : BankState := BankState.IDLE
  open_row : Option Nat := none
  last_activate_time : ℚ := 0
  last_precharge_time : ℚ := 0
  last_read_time : ℚ := 0
  last_write_time : ℚ := 0
  last_powerdown_time : ℚ := 0
  deriving DecidableEq

/-- Error messages returned by the state machine and driver, one
constructor per distinct source f-string, carrying the interpolated
numeric payloads. -/
inductive DRAMError where
  | bankAlreadyActive
  | bankIsRefreshing
  | trcViolation (time_since : ℚ) (trc : ℚ)
  | bankMustBeActiveForRead
  | bankMustBeActiveForWrite
  | trcdViolation (time_since : ℚ) (trcd : ℚ)
  | bankAlreadyIdle
  | trasViolation (time_since : ℚ) (tras : ℚ)
  | twrViolation (time_since : ℚ) (twr : ℚ)
  | trefiViolation (time_since : ℚ) (trfi : ℚ)
  | actRequiresRow
  | refpbRequiresBank
  deriving DecidableEq

/-- Model of `TimingConstraints.can_activate`: `none` means the command may issue,
`some e` carries the failure message. -/
def can_activate (spec : MemorySpec) (bank_info : BankStateInfo)
    (current_time : ℚ) : Option DRAMError :=
  if bank_info.state = BankState.ACTIVE then some DRAMError.bankAlreadyActive
  else if bank_info.state = BankState.REFRESHING then some DRAMError.bankIsRefreshing
  else if bank_info.last_activate_time > 0 then
    let time_since_activate := current_time - bank_info.last_activate_time
    if time_since_activate < spec.timing.trc_value then
      some (DRAMError.trcViolation time_since_activate spec.timing.trc_value)
    else none
  else none

/-- Model of `TimingConstraints.can_read`. -/
def can_read (spec : MemorySpec) (bank_info : BankStateInfo)
    (current_time : ℚ) : Option DRAMError :=
  if bank_info.state ≠ BankState.ACTIVE then some DRAMError.bankMustBeActiveForRead
  else
    let time_since_activate := current_time - bank_info.last_activate_time
    if time_since_activate < spec.timing.trcd then
      some (DRAMError.trcdViolation time_since_activate spec.timing.trcd)
    else none

/-- Model of `TimingConstraints.can_write`. -/
def can_write (spec : MemorySpec) (bank_info : BankStateInfo)
    (current_time : ℚ) : Option DRAMError :=
  if bank_info.state ≠ BankState.ACTIVE then some DRAMError.bankMustBeActiveForWrite
  else
    let time_since_activate := current_time - bank_info.last_activate_time
    if time_since_activate < spec.timing.trcd then
      some (DRAMError.trcdViolation time_since_activate spec.timing.trcd)
    else none

/-- Model of `TimingConstraints.can_precharge`. -/
def can_precharge (spec : MemorySpec) (bank_info : BankStateInfo)
    (current_time : ℚ) : Option DRAMError :=
  if bank_info.state = BankState.IDLE then some DRAMError.bankAlreadyIdle
  else if bank_info.state = BankState.REFRESHING then some DRAMError.bankIsRefreshing
  else if bank_info.state = BankState.ACTIVE ∧ bank_info.last_activate_time ≥ 0 then
    let time_since_activate := current_time - bank_info.last_activate_time
    if time_since_activate < spec.timing.tras then
      some (DRAMError.trasViolation time_since_activate spec.timing.tras)
    else if bank_info.last_write_time > 0 then
      let time_since_write := current_time - bank_info.last_write_time
      if time_since_write < spec.timing.twr then
        some (DRAMError.twrViolation time_since_write spec.timing.twr)
      else none
    else none
  else if bank_info.last_write_time > 0 then
    let time_since_write := current_time - bank_info.last_write_time
    if time_since_write < spec.timing.twr then
      some (DRAMError.twrViolation time_since_write spec.timing.twr)
    else none
  else none

/-- Model of `TimingConstraints.can_refresh`. -/
def can_refresh (spec : MemorySpec) (current_time : ℚ)
    (last_refresh_time : ℚ) : Option DRAMError :=
  let time_since_refresh := current_time - last_refresh_time
  if time_since_refresh < spec.timing.trfi then
    some (DRAMError.trefiViolation time_since_refresh spec.timing.trfi)
  else none

/-- Model of `state_machine.DRAMStateMachine` state (the constraint checker is the
pure functions above, sharing `spec`). -/
structure DRAMStateMachine where
  spec : MemorySpec
  banks : List BankStateInfo
  last_refresh_time : ℚ := -(10 ^ 9)
  current_time : ℚ := 0
  deriving DecidableEq

/-- Model of `DRAMStateMachine.__init__`: all banks idle, inserted in
`rank * nbr_of_banks + bank` order. -/
def DRAMStateMachine.init (spec : MemorySpec) : DRAMStateMachine :=
  { spec := spec
    banks := List.replicate
      (spec.architecture.nbr_of_ranks * spec.architecture.nbr_of_banks) {} }

/-- Index of `(rank, bank)` in the bank list. -/
def DRAMStateMachine.bank_index (m : DRAMStateMachine) (rank bank : Nat) : Nat :=
  rank * m.spec.architecture.nbr_of_banks + bank

/-- Model of `DRAMStateMachine.get_bank_info`. -/
def DRAMStateMachine.get_bank_info (m : DRAMStateMachine) (rank bank : Nat) :
    BankStateInfo :=
  m.banks.getD (m.bank_index rank bank) {}

/-- In-place mutation of one bank's record, as explicit update. -/
def DRAMStateMachine.set_bank (m : DRAMStateMachine) (rank bank : Nat)
    (info : BankStateInfo) : DRAMStateMachine :=
  { m with banks := m.banks.set (m.bank_index rank bank) info }

/-- Model of `DRAMStateMachine.update_time`. -/
def DRAMStateMachine.update_time (m : DRAMStateMachine) (time_ns : ℚ) :
    DRAMStateMachine :=
  { m with current_time := time_ns }

/-- Model of `DRAMStateMachine.execute_activate`: `(none, m')` on success. -/
def DRAMStateMachine.execute_activate (m : DRAMStateMachine)
    (rank bank row : Nat) : Option DRAMError × DRAMStateMachine :=
  let bank_info := m.get_bank_info rank bank
  match can_activate m.spec bank_info m.current_time with
  | some e => (some e, m)
  | none =>
      (none, m.set_bank rank bank
        { bank_info with
          state := BankState.ACTIVE
          open_row := some row
          last_activate_time := m.current_time })

/-- Model of `DRAMStateMachine.execute_read`. -/
def DRAMStateMachine.execute_read (m : DRAMStateMachine) (rank bank : Nat) :
    Option DRAMError × DRAMStateMachine :=
  let bank_info := m.get_bank_info rank bank
  match can_read m.spec bank_info m.current_time with
  | some e => (some e, m)
  | none =>
      (none, m.set_bank rank bank
        { bank_info with last_read_time := m.current_time })

/-- Model of `DRAMStateMachine.execute_write`. -/
def DRAMStateMachine.execute_write (m : DRAMStateMachine) (rank bank : Nat) :
    Option DRAMError × DRAMStateMachine :=
  let bank_info := m.get_bank_info rank bank
  match can_write m.spec bank_info m.current_time with
  | some e => (some e, m)
  | none =>
      (none, m.set_bank rank bank
        { bank_info with last_write_time := m.current_time })

/-- Model of `DRAMStateMachine.execute_precharge`. -/
def DRAMStateMachine.execute_precharge (m : DRAMStateMachine) (rank bank : Nat) :
    Option DRAMError × DRAMStateMachine :=
  let bank_info := m.get_bank_info rank bank
  match can_precharge m.spec bank_info m.current_time with
  | some e => (some e, m)
  | none =>
      (none, m.set_bank rank bank
        { bank_info with
          state := BankState.IDLE
          open_row := none
          last_precharge_time := m.current_time })

/-- Model of `DRAMStateMachine.execute_refresh`: active banks pass through
`REFRESHING` and return to `IDLE` with the row cleared inside this one
call (the dead local `refresh_end_time` is omitted). -/
def DRAMStateMachine.execute_refresh (m : DRAMStateMachine) :
    Option DRAMError × DRAMStateMachine :=
  match can_refresh m.spec m.current_time m.last_refresh_time with
  | some e => (some e, m)
  | none =>
      let banks1 := m.banks.map fun b =>
        if b.state = BankState.ACTIVE then { b with state := BankState.REFRESHING } else b
      let banks2 := banks1.map fun b =>
        if b.state = BankState.REFRESHING then
          { b with state := BankState.IDLE, open_row := none }
        else b
      (none, { m with banks := banks2, last_refresh_time := m.current_time })

/-- Model of `power_calculator.PowerResult` (energies in nJ, power in mW, time in
ns), all zero at construction. -/
structure PowerResult where
  core_energy : ℚ := 0
  interface_energy : ℚ := 0
  total_energy : ℚ := 0
  average_power : ℚ := 0
  simulation_time : ℚ := 0
  activation_energy : ℚ := 0
  read_energy : ℚ := 0
  write_energy : ℚ := 0
  precharge_energy : ℚ := 0
  refresh_energy : ℚ := 0
  background_active_energy : ℚ := 0
  background_precharge_energy : ℚ := 0
  powerdown_energy : ℚ := 0
  termination_energy : ℚ := 0
  dynamic_io_energy : ℚ := 0
  deriving DecidableEq

/-- Model of `PowerCalculator.odt_resistance` (Ω, engine constant). -/
def odt_resistance : ℚ := 120

/-- Model of `PowerCalculator.dq_capacitance` (pF, engine constant). -/
def dq_capacitance : ℚ := 2

/-- Model of `PowerCalculator.switching_activity` (engine constant, 50 %). -/
def switching_activity : ℚ := 1/2

/-- Model of `PowerCalculator.calculate_activation_power`. -/
def calculate_activation_power (spec : MemorySpec) (duration_ns : ℚ) : ℚ :=
  let idd_activation := spec.power.idd0 - spec.power.idd3n
  let power_mw := idd_activation * spec.power.vdd
  power_mw * duration_ns / 1000

/-- Model of `PowerCalculator.calculate_io_power_read` (the dead local `freq_ghz`
is omitted; `duration_ns` is accepted but unused, as in the source). -/
def calculate_io_power_read (spec : MemorySpec) (burst_length : Nat)
    (_duration_ns : ℚ) : ℚ :=
  let v_swing := spec.power.vddq
  let c_dq := dq_capacitance
  let n_dq_pins := spec.architecture.width
  let energy_per_transition_pj := 1/2 * c_dq * v_swing ^ 2
  let n_transitions := (burst_length : ℚ) * (n_dq_pins : ℚ) * switching_activity
  energy_per_transition_pj * n_transitions / 1000

/-- Model of `PowerCalculator.calculate_io_power_write` (delegates to the read
formula). -/
def calculate_io_power_write (spec : MemorySpec) (burst_length : Nat)
    (duration_ns : ℚ) : ℚ :=
  calculate_io_power_read spec burst_length duration_ns

/-- Model of `PowerCalculator.calculate_read_power`.  Python's `if burst_length:`
is falsy for both `None` and `0`. -/
def calculate_read_power (spec : MemorySpec) (duration_ns : ℚ)
    (burst_length : Option Nat) : ℚ :=
  let idd_read := spec.power.idd4r - spec.power.idd3n
  let power_mw := idd_read * spec.power.vdd
  let energy_nj := power_mw * duration_ns / 1000
  match burst_length with
  | some bl =>
      if bl ≠ 0 then energy_nj + calculate_io_power_read spec bl duration_ns
      else energy_nj
  | none => energy_nj

/-- Model of `PowerCalculator.calculate_write_power`. -/
def calculate_write_power (spec : MemorySpec) (duration_ns : ℚ)
    (burst_length : Option Nat) : ℚ :=
  let idd_write := spec.power.idd4w - spec.power.idd3n
  let power_mw := idd_write * spec.power.vdd
  let energy_nj := power_mw * duration_ns / 1000
  match burst_length with
  | some bl =>
      if bl ≠ 0 then energy_nj + calculate_io_power_write spec bl duration_ns
      else energy_nj
  | none => energy_nj

/-- Model of `PowerCalculator.calculate_precharge_power`. -/
def calculate_precharge_power (spec : MemorySpec) (duration_ns : ℚ) : ℚ :=
  let idd_precharge := spec.power.idd0 - spec.power.idd3n
  let power_mw := idd_precharge * spec.power.vdd
  power_mw * duration_ns / 1000

/-- Model of `PowerCalculator.calculate_refresh_power`. -/
def calculate_refresh_power (spec : MemorySpec) (duration_ns : ℚ) : ℚ :=
  let power_mw := spec.power.idd5b * spec.power.vdd
  power_mw * duration_ns / 1000

/-- Model of `PowerCalculator.calculate_background_power`, returning
`(active_energy, precharge_energy)` in nJ. -/
def calculate_background_power (spec : MemorySpec)
    (active_stby_time_ns active_pdn_time_ns : ℚ)
    (precharge_stby_time_ns precharge_pdn_time_ns : ℚ) : ℚ × ℚ :=
  let energy_active_stby_nj :=
    spec.power.idd3n * spec.power.vdd * active_stby_time_ns / 1000
  let energy_active_pdn_nj :=
    spec.power.idd3p * spec.power.vdd * active_pdn_time_ns / 1000
  let energy_precharge_stby_nj :=
    spec.power.idd2n * spec.power.vdd * precharge_stby_time_ns / 1000
  let energy_precharge_pdn_nj :=
    spec.power.idd2p * spec.power.vdd * precharge_pdn_time_ns / 1000
  (energy_active_stby_nj + energy_active_pdn_nj,
   energy_precharge_stby_nj + energy_precharge_pdn_nj)

/-- Model of `PowerCalculator.calculate_powerdown_power` (defined but never called
anywhere in the source). -/
def calculate_powerdown_power (spec : MemorySpec) (duration_ns : ℚ)
    (is_active_pdn : Bool) : ℚ :=
  let idd := if is_active_pdn then spec.power.idd3p else spec.power.idd2p
  let power_mw := idd * spec.power.vdd
  power_mw * duration_ns / 1000

/-- Model of `PowerCalculator.calculate_termination_power` (the duty cycle is 0.5
for both reads and writes). -/
def calculate_termination_power (spec : MemorySpec) (duration_ns : ℚ)
    (_is_read : Bool) : ℚ :=
  let v_term := spec.power.vddq / 2
  let r_term := odt_resistance
  let power_mw := v_term ^ 2 / r_term * 1000
  let duty_cycle : ℚ := 1/2
  power_mw * duration_ns * duty_cycle / 1000

/-- Mutable state of `power_calculator.PowerCalculator` (the unused
`state_history` and `last_state_time` attributes are omitted; the three
engine constants are the defs above). -/
structure PowerCalculator where
  result : PowerResult := {}
  refresh_count : Nat := 0
  last_refresh_time : ℚ := -(10 ^ 9)
  deriving DecidableEq

/-- Python's `burst_length or default`: `None` and `0` both fall back. -/
def bl_or_default (burst_length : Option Nat) (dflt : Nat) : Nat :=
  match burst_length with
  | some n => if n ≠ 0 then n else dflt
  | none => dflt

/-- Model of `PowerCalculator.process_command`, returning the energy charged to the
command and the updated calculator.  Python's `if next_time_ns` is falsy
for `None` and `0.0`. -/
def process_command (spec : MemorySpec) (pcalc : PowerCalculator)
    (cmd_type : CommandType) (_rank _bank : Nat) (current_time_ns : ℚ)
    (next_time_ns : Option ℚ) (_row _column : Option Nat)
    (burst_length : Option Nat) : ℚ × PowerCalculator :=
  let duration_ns :=
    match next_time_ns with
    | some t => if t ≠ 0 then t - current_time_ns else spec.timing.tck
    | none => spec.timing.tck
  match cmd_type with
  | CommandType.ACT =>
      let act_energy := calculate_activation_power spec spec.timing.tras
      (act_energy,
       { pcalc with result :=
          { pcalc.result with
            activation_energy := pcalc.result.activation_energy + act_energy } })
  | CommandType.RD =>
      let bl := bl_or_default burst_length spec.architecture.burst_length
      let rd_energy := calculate_read_power spec duration_ns (some bl)
      let term_energy := calculate_termination_power spec duration_ns true
      (rd_energy + term_energy,
       { pcalc with result :=
          { pcalc.result with
            read_energy := pcalc.result.read_energy + rd_energy
            termination_energy := pcalc.result.termination_energy + term_energy } })
  | CommandType.WR =>
      let bl := bl_or_default burst_length spec.architecture.burst_length
      let wr_energy := calculate_write_power spec duration_ns (some bl)
      let term_energy := calculate_termination_power spec duration_ns false
      (wr_energy + term_energy,
       { pcalc with result :=
          { pcalc.result with
            write_energy := pcalc.result.write_energy + wr_energy
            termination_energy := pcalc.result.termination_energy + term_energy } })
  | CommandType.PRE =>
      let pre_energy := calculate_precharge_power spec spec.timing.trp
      (pre_energy,
       { pcalc with result :=
          { pcalc.result with
            precharge_energy := pcalc.result.precharge_energy + pre_energy } })
  | CommandType.PREA =>
      let pre_energy := calculate_precharge_power spec spec.timing.trp
      (pre_energy,
       { pcalc with result :=
          { pcalc.result with
            precharge_energy := pcalc.result.precharge_energy + pre_energy } })
  | CommandType.REF =>
      let ref_energy := calculate_refresh_power spec spec.timing.trfc
      (ref_energy,
       { pcalc with
         result :=
          { pcalc.result with
            refresh_energy := pcalc.result.refresh_energy + ref_energy }
         refresh_count := pcalc.refresh_count + 1
         last_refresh_time := current_time_ns })
  | CommandType.REFPB =>
      let trfc :=
        match spec.timing.trfcpb with
        | some v => if v ≠ 0 then v else spec.timing.trfc
        | none => spec.timing.trfc
      let ref_energy := calculate_refresh_power spec trfc
      (ref_energy,
       { pcalc with
         result :=
          { pcalc.result with
            refresh_energy := pcalc.result.refresh_energy + ref_energy }
         refresh_count := pcalc.refresh_count + 1
         last_refresh_time := current_time_ns })
  | _ => (0, pcalc)

/-- Model of `PowerCalculator.accumulate_background_power`. -/
def accumulate_background_power (spec : MemorySpec) (machine : DRAMStateMachine)
    (pcalc : PowerCalculator) (start_time_ns end_time_ns : ℚ) : PowerCalculator :=
  let duration_ns := end_time_ns - start_time_ns
  if duration_ns ≤ 0 then pcalc
  else
    let n_active_stby :=
      machine.banks.countP fun b => b.state = BankState.ACTIVE
    let n_active_pdn :=
      machine.banks.countP fun b => b.state = BankState.ACTIVE_PDN
    let n_precharge_stby :=
      machine.banks.countP fun b => b.state = BankState.IDLE
    let n_precharge_pdn :=
      machine.banks.countP fun b => b.state = BankState.PRE_PDN
    let n_total :=
      spec.architecture.nbr_of_ranks * spec.architecture.nbr_of_banks
    let times :=
      if n_total > 0 then
        (duration_ns * ((n_active_stby : ℚ) / (n_total : ℚ)),
         duration_ns * ((n_active_pdn : ℚ) / (n_total : ℚ)),
         duration_ns * ((n_precharge_stby : ℚ) / (n_total : ℚ)),
         duration_ns * ((n_precharge_pdn : ℚ) / (n_total : ℚ)))
      else (0, 0, duration_ns, 0)
    let bg := calculate_background_power spec times.1 times.2.1 times.2.2.1 times.2.2.2
    { pcalc with result :=
       { pcalc.result with
         background_active_energy := pcalc.result.background_active_energy + bg.1
         background_precharge_energy :=
           pcalc.result.background_precharge_energy + bg.2 } }

/-- Model of `PowerCalculator.finalize`. -/
def finalize (r : PowerResult) (simulation_time_ns : ℚ) : PowerResult :=
  let core := r.activation_energy + r.read_energy + r.write_energy +
    r.precharge_energy + r.refresh_energy + r.background_active_energy +
    r.background_precharge_energy + r.powerdown_energy
  let iface := r.termination_energy + r.dynamic_io_energy
  let total := core + iface
  { r with
    simulation_time := simulation_time_ns
    core_energy := core
    interface_energy := iface
    total_energy := total
    average_power :=
      if simulation_time_ns > 0 then total / simulation_time_ns * 1000 else 0 }

/-- Driver-level error records: one per accumulated error string
(`"Command <kind> at <ts> cycles: <reason>"`, or the "No commands in
workload" message). -/
inductive SimError where
  | cmdError (cmd : CommandType) (timestamp : Int) (err : DRAMError)
  | noCommands
  deriving DecidableEq

/-- Model of `Simulator._execute_command`: `(none, m')` on success.  The
precharge-all branch attempts every bank of the rank in index order,
keeping all mutations and overwriting the recorded error at each failure. -/
def execute_command (m : DRAMStateMachine) (cmd : Command) (rank bank : Nat) :
    Option DRAMError × DRAMStateMachine :=
  match cmd.command with
  | CommandType.ACT =>
      match cmd.row with
      | none => (some DRAMError.actRequiresRow, m)
      | some row => m.execute_activate rank bank row
  | CommandType.RD => m.execute_read rank bank
  | CommandType.WR => m.execute_write rank bank
  | CommandType.PRE => m.execute_precharge rank bank
  | CommandType.PREA =>
      (List.range m.spec.architecture.nbr_of_banks).foldl
        (fun acc b =>
          let r := acc.2.execute_precharge rank b
          (if r.1.isSome then r.1 else acc.1, r.2))
        (none, m)
  | CommandType.REF => m.execute_refresh
  | CommandType.REFPB =>
      match cmd.bank with
      | none => (some DRAMError.refpbRequiresBank, m)
      | some _ => m.execute_refresh
  | _ => (none, m)

/-- Whole mutable state of one `Simulator` run. -/
structure SimState where
  machine : DRAMStateMachine
  pcalc : PowerCalculator
  errors : List SimError
  deriving DecidableEq

/-- The per-command loop of `Simulator.simulate` (commands already
sorted; `last_time` threaded; returns the state and final `last_time`).
An `END_OF_SIMULATION` command flushes background energy and stops. -/
def simulate_loop (spec : MemorySpec) :
    List Command → SimState → ℚ → SimState × ℚ
  | [], st, last_time => (st, last_time)
  | cmd :: rest, st, last_time =>
    if cmd.command = CommandType.END_OF_SIMULATION then
      let current_time_ns := (cmd.timestamp : ℚ) * spec.timing.tck
      let calc1 :=
        accumulate_background_power spec st.machine st.pcalc last_time current_time_ns
      ({ st with pcalc := calc1 }, current_time_ns)
    else
      let current_time_ns := (cmd.timestamp : ℚ) * spec.timing.tck
      let next_time_ns :=
        match rest.head? with
        | some c2 => (c2.timestamp : ℚ) * spec.timing.tck
        | none => current_time_ns + spec.timing.tck
      let calc1 :=
        if current_time_ns > last_time then
          accumulate_background_power spec st.machine st.pcalc last_time current_time_ns
        else st.pcalc
      let m1 := st.machine.update_time current_time_ns
      let rank := cmd.rank.getD 0
      let bank := cmd.bank.getD 0
      let r := execute_command m1 cmd rank bank
      match r.1 with
      | some e =>
          simulate_loop spec rest
            { machine := r.2, pcalc := calc1,
              errors := st.errors ++ [SimError.cmdError cmd.command cmd.timestamp e] }
            current_time_ns
      | none =>
          let pc := process_command spec calc1 cmd.command rank bank
            current_time_ns (some next_time_ns) cmd.row cmd.column cmd.burst_length
          let calc2 :=
            { pc.2 with result :=
               { pc.2.result with
                 core_energy := pc.2.result.core_energy + pc.1 } }
          simulate_loop spec rest
            { machine := r.2, pcalc := calc2, errors := st.errors } current_time_ns

/-- Timestamp order used by the driver's stable sort. -/
def cmd_le (a b : Command) : Prop := a.timestamp ≤ b.timestamp

instance : DecidableRel cmd_le := fun a b =>
  inferInstanceAs (Decidable (a.timestamp ≤ b.timestamp))

instance : IsTotal Command cmd_le :=
  ⟨fun a b => Int.le_total a.timestamp b.timestamp⟩

instance : IsTrans Command cmd_le :=
  ⟨fun _ _ _ h1 h2 => le_trans h1 h2⟩

/-- The driver's `sorted(commands, key=lambda c: c.timestamp)`: a stable
sort by timestamp (stable sorts by the same key agree extensionally, so
insertion sort models CPython's Timsort faithfully). -/
def sort_by_timestamp (commands : List Command) : List Command :=
  List.insertionSort cmd_le commands

/-- Placeholder command used only for the (unreachable) empty case of the
driver's `sorted_commands[-1]` access. -/
def dummy_command : Command :=
  { timestamp := 0, command := CommandType.END_OF_SIMULATION }

/-- Model of `Simulator.simulate`, returning the finalized `PowerResult` and the
accumulated error list.  An empty trace records the "No commands in
workload" error and returns the untouched zero result. -/
def simulate (spec : MemorySpec) (commands : List Command) :
    PowerResult × List SimError :=
  if commands = [] then ({}, [SimError.noCommands])
  else
    let sorted_commands := sort_by_timestamp commands
    let st0 : SimState :=
      { machine := DRAMStateMachine.init spec, pcalc := {}, errors := [] }
    let out := simulate_loop spec sorted_commands st0 0
    let final_time_ns :=
      if out.2 > 0 then out.2
      else ((sorted_commands.getLastD dummy_command).timestamp : ℚ) * spec.timing.tck
    (finalize out.1.pcalc.result final_time_ns, out.1.errors)

/-! Helper definitions used by the verification theorems. -/

/-- No bank of the machine is in a power-down state. -/
def no_pdn_banks (m : DRAMStateMachine) : Prop :=
  ∀ b ∈ m.banks, b.state ≠ BankState.ACTIVE_PDN ∧ b.state ≠ BankState.PRE_PDN

/-- Sequential per-bank trace of the precharge-all loop: the list of
per-bank error outputs (in bank order, each bank checked against the
state left by the previous banks) together with the final machine. -/
def prea_scan (m : DRAMStateMachine) (rank : Nat) :
    List (Option DRAMError) × DRAMStateMachine :=
  (List.range m.spec.architecture.nbr_of_banks).foldl
    (fun acc b =>
      let r := acc.2.execute_precharge rank b
      (acc.1 ++ [r.1], r.2))
    ([], m)

/-- The last `some` of a list of options (`none` if all are `none`):
the value left in a variable that is overwritten at each `some`. -/
def last_some (l : List (Option DRAMError)) : Option DRAMError :=
  l.reverse.findSome? id

/-- DDR5 datasheet fixture used by the repository's tests
(`tests/test_simulator.py`): tCK = 0.312 ns, tRAS = 32 ns,
tRP = tRCD = 13.75 ns, tRFC = 280 ns, I_DD5B = 80 mA, V_DD = 1.1 V,
1 rank × 4 banks, ×64, BL16. -/
def fixture_spec : MemorySpec :=
  { power :=
      { idd0 := 51, idd2n := 35, idd2p := 25, idd3n := 46, idd3p := 15
        idd4r := 146, idd4w := 120, idd5b := 80, idd6 := 3
        vdd := 11/10, vddq := 11/10, vddca := 11/10 }
    timing :=
      { tck := 39/125, tras := 32, trp := 55/4, trcd := 55/4, trfc := 280 }
    architecture :=
      { nbr_of_ranks := 1, nbr_of_banks := 4, nbr_of_columns := 1024
        nbr_of_rows := 65536, width := 64, burst_length := 16, density := 16 } }

/-- Scenario C trace: refresh at cycle 0, end of simulation at cycle
10000. -/
def refresh_trace : List Command :=
  [{ timestamp := 0, command := CommandType.REF, rank := some 0 },
   { timestamp := 10000, command := CommandType.END_OF_SIMULATION }]

/-- Trace with a successful burst-16 read: activate bank 0 at cycle 0,
read at cycle 50 (tRCD satisfied: 15.6 ns ≥ 13.75 ns), end at cycle
1000. -/
def read_trace : List Command :=
  [{ timestamp := 0, command := CommandType.ACT, bank := some 0, rank := some 0,
     row := some 512 },
   { timestamp := 50, command := CommandType.RD, bank := some 0, rank := some 0,
     burst_length := some 16 },
   { timestamp := 1000, command := CommandType.END_OF_SIMULATION }]

/-- Fixture with a single rank of two banks and tCK = 1 ns, for the
precharge-all counterexamples. -/
def two_bank_spec : MemorySpec :=
  { power :=
      { idd0 := 51, idd2n := 35, idd2p := 25, idd3n := 46, idd3p := 15
        idd4r := 146, idd4w := 120, idd5b := 80, idd6 := 3
        vdd := 11/10, vddq := 11/10, vddca := 11/10 }
    timing :=
      { tck := 1, tras := 32, trp := 16, trcd := 55/4, trfc := 280 }
    architecture :=
      { nbr_of_ranks := 1, nbr_of_banks := 2, nbr_of_columns := 1024
        nbr_of_rows := 65536, width := 64, burst_length := 16, density := 16 } }

/-- One rank, one bank, tCK = 1 ns, tRAS = 32 ns, tRP = 16 ns, so the
defaulted row cycle tRC is 48 ns. -/
def one_bank_spec : MemorySpec :=
  { power :=
      { idd0 := 51, idd2n := 35, idd2p := 25, idd3n := 46, idd3p := 15
        idd4r := 146, idd4w := 120, idd5b := 80, idd6 := 3
        vdd := 11/10, vddq := 11/10, vddca := 11/10 }
    timing :=
      { tck := 1, tras := 32, trp := 16, trcd := 55/4, trfc := 280 }
    architecture :=
      { nbr_of_ranks := 1, nbr_of_banks := 1, nbr_of_columns := 1024
        nbr_of_rows := 65536, width := 64, burst_length := 16, density := 16 } }

/-- Degenerate but well-formed timing fixture with tRAS = tRCD = 0 (the
loader imposes no lower bound on timing fields), one rank × one bank,
write recovery tWR left at its 15 ns default. -/
def zero_timing_spec : MemorySpec :=
  { power :=
      { idd0 := 51, idd2n := 35, idd2p := 25, idd3n := 46, idd3p := 15
        idd4r := 146, idd4w := 120, idd5b := 80, idd6 := 3
        vdd := 11/10, vddq := 11/10, vddca := 11/10 }
    timing :=
      { tck := 1, tras := 0, trp := 16, trcd := 0, trfc := 280 }
    architecture :=
      { nbr_of_ranks := 1, nbr_of_banks := 1, nbr_of_columns := 1024
        nbr_of_rows := 65536, width := 64, burst_length := 16, density := 16 } }

/-! Theorems. -/

/-- C4: for any completed run, `total_energy` equals
`core_energy + interface_energy`, `core_energy` is the sum of the eight
core counters, `interface_energy` is termination plus dynamic I/O, and
`total_energy` agrees with the sum of all ten category counters within
1e-1 nJ (here exactly, since the embedding computes in ℚ). -/
theorem C4_energy_totals (spec : MemorySpec) (commands : List Command) :
    (simulate spec commands).1.total_energy =
      (simulate spec commands).1.core_energy +
        (simulate spec commands).1.interface_energy ∧
    (simulate spec commands).1.core_energy =
      (simulate spec commands).1.activation_energy +
      (simulate spec commands).1.read_energy +
      (simulate spec commands).1.write_energy +
      (simulate spec commands).1.precharge_energy +
      (simulate spec commands).1.refresh_energy +
      (simulate spec commands).1.background_active_energy +
      (simulate spec commands).1.background_precharge_energy +
      (simulate spec commands).1.powerdown_energy ∧
    (simulate spec commands).1.interface_energy =
      (simulate spec commands).1.termination_energy +
      (simulate spec commands).1.dynamic_io_energy ∧
    |(simulate spec commands).1.total_energy -
      ((simulate spec commands).1.activation_energy +
       (simulate spec commands).1.read_energy +
       (simulate spec commands).1.write_energy +
       (simulate spec commands).1.precharge_energy +
       (simulate spec commands).1.refresh_energy +
       (simulate spec commands).1.background_active_energy +
       (simulate spec commands).1.background_precharge_energy +
       (simulate spec commands).1.powerdown_energy +
       (simulate spec commands).1.termination_energy +
       (simulate spec commands).1.dynamic_io_energy)| ≤ 1/10 := by
  have key : ∀ (r : PowerResult) (t : ℚ),
      (finalize r t).total_energy =
        (finalize r t).core_energy + (finalize r t).interface_energy ∧
      (finalize r t).core_energy =
        (finalize r t).activation_energy + (finalize r t).read_energy +
        (finalize r t).write_energy + (finalize r t).precharge_energy +
        (finalize r t).refresh_energy + (finalize r t).background_active_energy +
        (finalize r t).background_precharge_energy + (finalize r t).powerdown_energy ∧
      (finalize r t).interface_energy =
        (finalize r t).termination_energy + (finalize r t).dynamic_io_energy ∧
      |(finalize r t).total_energy -
        ((finalize r t).activation_energy + (finalize r t).read_energy +
         (finalize r t).write_energy + (finalize r t).precharge_energy +
         (finalize r t).refresh_energy + (finalize r t).background_active_energy +
         (finalize r t).background_precharge_energy + (finalize r t).powerdown_energy +
         (finalize r t).termination_energy + (finalize r t).dynamic_io_energy)| ≤ 1/10 := by
    intro r t
    refine ⟨?_, ?_, ?_, ?_⟩
    · simp [finalize]
    · simp [finalize]
    · simp [finalize]
    · simp only [finalize]
      ring_nf
      norm_num
  by_cases h : commands = []
  · subst h
    refine ⟨?_, ?_, ?_, ?_⟩ <;> norm_num [simulate]
  · simp only [simulate, if_neg h]
    exact key _ _

/-- C9: simulating an empty command list records exactly the single
"No commands in workload" error and returns an all-zero result: every
energy counter, the derived totals, the duration and the average power
are zero. -/
theorem C9_empty_trace (spec : MemorySpec) :
    (simulate spec []).2 = [SimError.noCommands] ∧
    (simulate spec []).1.activation_energy = 0 ∧
    (simulate spec []).1.read_energy = 0 ∧
    (simulate spec []).1.write_energy = 0 ∧
    (simulate spec []).1.precharge_energy = 0 ∧
    (simulate spec []).1.refresh_energy = 0 ∧
    (simulate spec []).1.background_active_energy = 0 ∧
    (simulate spec []).1.background_precharge_energy = 0 ∧
    (simulate spec []).1.powerdown_energy = 0 ∧
    (simulate spec []).1.termination_energy = 0 ∧
    (simulate spec []).1.dynamic_io_energy = 0 ∧
    (simulate spec []).1.core_energy = 0 ∧
    (simulate spec []).1.interface_energy = 0 ∧
    (simulate spec []).1.total_energy = 0 ∧
    (simulate spec []).1.simulation_time = 0 ∧
    (simulate spec []).1.average_power = 0 := by
  simp [simulate]

/-- Sorting an already timestamp-sorted command list leaves it unchanged,
so the driver's sort is idempotent. -/
lemma sort_by_timestamp_idem (commands : List Command) :
    sort_by_timestamp (sort_by_timestamp commands) = sort_by_timestamp commands :=
  List.Sorted.insertionSort_eq (List.sorted_insertionSort cmd_le commands)

/-- C5: simulating any trace yields exactly the same result (all energy
counters, duration, average power, errors and warnings) as simulating
the trace pre-sorted by timestamp, because the driver stable-sorts by
timestamp before execution. -/
theorem C5_sort_invariance (spec : MemorySpec) (commands : List Command) :
    simulate spec commands = simulate spec (sort_by_timestamp commands) := by
  by_cases h : commands = []
  · subst h
    rfl
  · have h2 : sort_by_timestamp commands ≠ [] := by
      intro hs
      apply h
      have hlen := congrArg List.length hs
      simpa [sort_by_timestamp, List.length_insertionSort,
        List.length_eq_zero] using hlen
    simp only [simulate, if_neg h, if_neg h2, sort_by_timestamp_idem]

/-- Success condition of the activate legality check: the tRC interval is
only enforced when the recorded last-activate time is strictly positive. -/
lemma can_activate_eq_none_iff (spec : MemorySpec) (info : BankStateInfo)
    (t : ℚ) :
    can_activate spec info t = none ↔
      info.state ≠ BankState.ACTIVE ∧ info.state ≠ BankState.REFRESHING ∧
      (info.last_activate_time > 0 →
        t - info.last_activate_time ≥ spec.timing.trc_value) := by
  unfold can_activate
  split_ifs with h1 h2 h3 <;> simp_all [not_lt, ge_iff_le]

/-- Success condition of the precharge legality check: tRAS is enforced
for an `ACTIVE` bank with a nonnegative last-activate time, and tWR only
when the recorded last-write time is strictly positive. -/
lemma can_precharge_eq_none_iff (spec : MemorySpec) (info : BankStateInfo)
    (t : ℚ) :
    can_precharge spec info t = none ↔
      info.state ≠ BankState.IDLE ∧ info.state ≠ BankState.REFRESHING ∧
      (info.state = BankState.ACTIVE ∧ info.last_activate_time ≥ 0 →
        t - info.last_activate_time ≥ spec.timing.tras) ∧
      (info.last_write_time > 0 →
        t - info.last_write_time ≥ spec.timing.twr) := by
  unfold can_precharge
  by_cases h1 : info.state = BankState.IDLE
  · simp [h1]
  · by_cases h2 : info.state = BankState.REFRESHING
    · simp [h1, h2]
    · by_cases h3 : info.state = BankState.ACTIVE ∧ info.last_activate_time ≥ 0
      · by_cases h4 : t - info.last_activate_time < spec.timing.tras
        · simp only [if_neg h1, if_neg h2, if_pos h3, if_pos h4]
          simp [h1, h2, h3, not_le.mpr h4]
        · by_cases h5 : info.last_write_time > 0
          · by_cases h6 : t - info.last_write_time < spec.timing.twr
            · simp only [if_neg h1, if_neg h2, if_pos h3, if_neg h4, if_pos h5,
                if_pos h6]
              simp [h1, h2, h5, not_le.mpr h6]
            · simp only [if_neg h1, if_neg h2, if_pos h3, if_neg h4, if_pos h5,
                if_neg h6]
              simp_all [not_lt, ge_iff_le]
          · simp only [if_neg h1, if_neg h2, if_pos h3, if_neg h4, if_neg h5]
            simp_all [not_lt, ge_iff_le]
      · by_cases h5 : info.last_write_time > 0
        · by_cases h6 : t - info.last_write_time < spec.timing.twr
          · simp only [if_neg h1, if_neg h2, if_neg h3, if_pos h5, if_pos h6]
            simp [h1, h2, h5, not_le.mpr h6]
          · simp only [if_neg h1, if_neg h2, if_neg h3, if_pos h5, if_neg h6]
            simp_all [not_lt, ge_iff_le]
        · simp only [if_neg h1, if_neg h2, if_neg h3, if_neg h5]
          simp_all [not_lt, ge_iff_le]

/-- C6 (amended): activate succeeds iff the bank is neither `ACTIVE` nor
`REFRESHING` and, whenever the recorded last-activate time is strictly
positive, `current_time − last_activate_time ≥ tRC`; a bank whose only
activate occurred at time 0 carries the never-activated default record
and is exempt from the tRC check.  On success the bank's state becomes
`ACTIVE` with the open row and last-activate time set and nothing else
changed; on failure the machine is untouched. -/
theorem C6_activate_amended (m : DRAMStateMachine) (rank bank row : Nat) :
    ((m.execute_activate rank bank row).1 = none ↔
      (m.get_bank_info rank bank).state ≠ BankState.ACTIVE ∧
      (m.get_bank_info rank bank).state ≠ BankState.REFRESHING ∧
      ((m.get_bank_info rank bank).last_activate_time > 0 →
        m.current_time - (m.get_bank_info rank bank).last_activate_time ≥
          m.spec.timing.trc_value)) ∧
    (m.execute_activate rank bank row).2 =
      (if (m.execute_activate rank bank row).1 = none then
        m.set_bank rank bank
          { m.get_bank_info rank bank with
            state := BankState.ACTIVE
            open_row := some row
            last_activate_time := m.current_time }
       else m) := by
  cases hc : can_activate m.spec (m.get_bank_info rank bank) m.current_time with
  | some e =>
      have hne := (can_activate_eq_none_iff m.spec (m.get_bank_info rank bank)
        m.current_time).not.mp (by simp [hc])
      constructor
      · simp only [DRAMStateMachine.execute_activate, hc]
        simpa using hne
      · simp [DRAMStateMachine.execute_activate, hc]
  | none =>
      have hyes := (can_activate_eq_none_iff m.spec (m.get_bank_info rank bank)
        m.current_time).mp hc
      constructor
      · simp only [DRAMStateMachine.execute_activate, hc]
        simpa using hyes
      · simp [DRAMStateMachine.execute_activate, hc]

/-- C6 counterexample: with tRAS = 32 ns, tRP = 16 ns (so tRC defaults to
48 ns), activate bank 0 at time 0, precharge it at time 32, then activate
again at time 40.  The bank's only prior activate occurred at time 0 and
`40 − 0 = 40 < 48 = tRC`, yet the second activate succeeds — the code only
enforces tRC when the recorded last-activate time is strictly positive,
refuting the claim's "including a bank whose only prior activate occurred
at time 0". -/
theorem C6_counterexample :
    -- the machine after: activate(0,0,row 1)@0 then precharge(0,0)@32
    let m0 := (DRAMStateMachine.init one_bank_spec).update_time 0
    let s1 := m0.execute_activate 0 0 1
    let m1 := s1.2.update_time 32
    let s2 := m1.execute_precharge 0 0
    let m2 := s2.2.update_time 40
    let s3 := m2.execute_activate 0 0 2
    s1.1 = none ∧
    (s1.2.get_bank_info 0 0).last_activate_time = 0 ∧
    s2.1 = none ∧
    ((m2.get_bank_info 0 0).state ≠ BankState.ACTIVE ∧
      (m2.get_bank_info 0 0).state ≠ BankState.REFRESHING) ∧
    m2.current_time - (m2.get_bank_info 0 0).last_activate_time <
      one_bank_spec.timing.trc_value ∧
    s3.1 = none := by
  norm_num +decide [DRAMStateMachine.init, DRAMStateMachine.update_time,
    DRAMStateMachine.execute_activate, DRAMStateMachine.execute_precharge,
    DRAMStateMachine.get_bank_info, DRAMStateMachine.set_bank,
    DRAMStateMachine.bank_index, can_activate, can_precharge,
    MemoryTimingSpec.trc_value, one_bank_spec, List.getD_cons_zero,
    List.getD_cons_succ]

/-- C7 (amended): precharge fails when the bank is `IDLE` or
`REFRESHING`; when the bank is `ACTIVE` with a nonnegative recorded
last-activate time it requires `current_time − last_activate_time ≥ tRAS`,
and, whenever the recorded last-write time is strictly positive, it
requires `current_time − last_write_time ≥ tWR` — a bank whose only write
occurred at time 0 carries the never-written default record and is exempt
from the tWR check.  On success the state becomes `IDLE`, the open row is
cleared and the last-precharge time is updated; on failure the machine is
untouched. -/
theorem C7_precharge_amended (m : DRAMStateMachine) (rank bank : Nat) :
    ((m.execute_precharge rank bank).1 = none ↔
      (m.get_bank_info rank bank).state ≠ BankState.IDLE ∧
      (m.get_bank_info rank bank).state ≠ BankState.REFRESHING ∧
      ((m.get_bank_info rank bank).state = BankState.ACTIVE ∧
          (m.get_bank_info rank bank).last_activate_time ≥ 0 →
        m.current_time - (m.get_bank_info rank bank).last_activate_time ≥
          m.spec.timing.tras) ∧
      ((m.get_bank_info rank bank).last_write_time > 0 →
        m.current_time - (m.get_bank_info rank bank).last_write_time ≥
          m.spec.timing.twr)) ∧
    (m.execute_precharge rank bank).2 =
      (if (m.execute_precharge rank bank).1 = none then
        m.set_bank rank bank
          { m.get_bank_info rank bank with
            state := BankState.IDLE
            open_row := none
            last_precharge_time := m.current_time }
       else m) := by
  cases hc : can_precharge m.spec (m.get_bank_info rank bank) m.current_time with
  | some e =>
      have hne := (can_precharge_eq_none_iff m.spec (m.get_bank_info rank bank)
        m.current_time).not.mp (by simp [hc])
      constructor
      · simp only [DRAMStateMachine.execute_precharge, hc]
        simpa using hne
      · simp [DRAMStateMachine.execute_precharge, hc]
  | none =>
      have hyes := (can_precharge_eq_none_iff m.spec (m.get_bank_info rank bank)
        m.current_time).mp hc
      constructor
      · simp only [DRAMStateMachine.execute_precharge, hc]
        simpa using hyes
      · simp [DRAMStateMachine.execute_precharge, hc]

/-- C7 counterexample: with tRAS = tRCD = 0 and the default tWR = 15 ns,
activate bank 0 at time 0, write it at time 0 (tRCD = 0 makes the write
legal), then precharge at time 5.  The bank's only write occurred at time
0 and `5 − 0 = 5 < 15 = tWR`, yet the precharge succeeds — the code only
enforces tWR when the recorded last-write time is strictly positive,
refuting the claim's "including a bank whose only write occurred at time
0". -/
theorem C7_counterexample :
    -- the machine after: activate(0,0,row 1)@0 then write(0,0)@0
    let m0 := (DRAMStateMachine.init zero_timing_spec).update_time 0
    let s1 := m0.execute_activate 0 0 1
    let s2 := s1.2.execute_write 0 0
    let m2 := s2.2.update_time 5
    let s3 := m2.execute_precharge 0 0
    s1.1 = none ∧
    s2.1 = none ∧
    (s2.2.get_bank_info 0 0).last_write_time = 0 ∧
    (m2.get_bank_info 0 0).state = BankState.ACTIVE ∧
    m2.current_time - (m2.get_bank_info 0 0).last_write_time <
      zero_timing_spec.timing.twr ∧
    s3.1 = none := by
  norm_num +decide [DRAMStateMachine.init, DRAMStateMachine.update_time,
    DRAMStateMachine.execute_activate, DRAMStateMachine.execute_write,
    DRAMStateMachine.execute_precharge, DRAMStateMachine.get_bank_info,
    DRAMStateMachine.set_bank, DRAMStateMachine.bank_index, can_activate,
    can_write, can_precharge, zero_timing_spec, List.getD_cons_zero,
    List.getD_cons_succ]

/-- A failed activate leaves the machine untouched. -/
lemma execute_activate_fail_eq (m : DRAMStateMachine) (rank bank row : Nat)
    (h : (m.execute_activate rank bank row).1.isSome) :
    (m.execute_activate rank bank row).2 = m := by
  unfold DRAMStateMachine.execute_activate at h ⊢
  cases hc : can_activate m.spec (m.get_bank_info rank bank) m.current_time <;>
    simp [hc] at h ⊢

/-- A failed read leaves the machine untouched. -/
lemma execute_read_fail_eq (m : DRAMStateMachine) (rank bank : Nat)
    (h : (m.execute_read rank bank).1.isSome) :
    (m.execute_read rank bank).2 = m := by
  unfold DRAMStateMachine.execute_read at h ⊢
  cases hc : can_read m.spec (m.get_bank_info rank bank) m.current_time <;>
    simp [hc] at h ⊢

/-- A failed write leaves the machine untouched. -/
lemma execute_write_fail_eq (m : DRAMStateMachine) (rank bank : Nat)
    (h : (m.execute_write rank bank).1.isSome) :
    (m.execute_write rank bank).2 = m := by
  unfold DRAMStateMachine.execute_write at h ⊢
  cases hc : can_write m.spec (m.get_bank_info rank bank) m.current_time <;>
    simp [hc] at h ⊢

/-- A failed precharge leaves the machine untouched. -/
lemma execute_precharge_fail_eq (m : DRAMStateMachine) (rank bank : Nat)
    (h : (m.execute_precharge rank bank).1.isSome) :
    (m.execute_precharge rank bank).2 = m := by
  unfold DRAMStateMachine.execute_precharge at h ⊢
  cases hc : can_precharge m.spec (m.get_bank_info rank bank) m.current_time <;>
    simp [hc] at h ⊢

/-- A failed refresh leaves the machine untouched. -/
lemma execute_refresh_fail_eq (m : DRAMStateMachine)
    (h : (m.execute_refresh).1.isSome) :
    (m.execute_refresh).2 = m := by
  unfold DRAMStateMachine.execute_refresh at h ⊢
  cases hc : can_refresh m.spec m.current_time m.last_refresh_time <;>
    simp [hc] at h ⊢

/-- C1 (amended): for every command kind except precharge-all, a command
whose dispatch reports failure leaves the state machine — every bank's
state tag, open row and all last-event timestamps — exactly as it was.
(For precharge-all the driver still reports failure but keeps the
mutations of the banks whose individual precharges succeeded; see the
counterexample.) -/
theorem C1_fail_no_mutation (m : DRAMStateMachine) (cmd : Command)
    (rank bank : Nat) (hne : cmd.command ≠ CommandType.PREA)
    (hfail : (execute_command m cmd rank bank).1.isSome) :
    (execute_command m cmd rank bank).2 = m := by
  cases hcmd : cmd.command with
  | ACT =>
      cases hrow : cmd.row with
      | none => simp [execute_command, hcmd, hrow]
      | some row =>
          simp only [execute_command, hcmd, hrow] at hfail ⊢
          exact execute_activate_fail_eq m rank bank row hfail
  | RD =>
      simp only [execute_command, hcmd] at hfail ⊢
      exact execute_read_fail_eq m rank bank hfail
  | WR =>
      simp only [execute_command, hcmd] at hfail ⊢
      exact execute_write_fail_eq m rank bank hfail
  | PRE =>
      simp only [execute_command, hcmd] at hfail ⊢
      exact execute_precharge_fail_eq m rank bank hfail
  | PREA => exact absurd hcmd hne
  | REF =>
      simp only [execute_command, hcmd] at hfail ⊢
      exact execute_refresh_fail_eq m hfail
  | REFPB =>
      cases hb : cmd.bank with
      | none => simp [execute_command, hcmd, hb]
      | some b =>
          simp only [execute_command, hcmd, hb] at hfail ⊢
          exact execute_refresh_fail_eq m hfail
  | PDN => simp [execute_command, hcmd] at hfail
  | SR => simp [execute_command, hcmd] at hfail
  | END_OF_SIMULATION => simp [execute_command, hcmd] at hfail

/-- Witness for C1: a read on a fresh (all-idle) machine fails and the
machine is returned unchanged. -/
theorem C1_fail_no_mutation_witness :
    (execute_command (DRAMStateMachine.init two_bank_spec)
      { timestamp := 0, command := CommandType.RD } 0 0).1.isSome ∧
    (execute_command (DRAMStateMachine.init two_bank_spec)
      { timestamp := 0, command := CommandType.RD } 0 0).2 =
      DRAMStateMachine.init two_bank_spec :=
  ⟨by decide,
   C1_fail_no_mutation (DRAMStateMachine.init two_bank_spec)
     { timestamp := 0, command := CommandType.RD } 0 0 (by decide) (by decide)⟩

/-- C1 counterexample: activate bank 1 at time 0, then issue precharge-all
at time 200 (tRAS long satisfied).  Bank 0 is idle, so the dispatch
reports failure ("Bank already idle"), yet bank 1 — active before the
command — has been precharged: its state tag, open row and last-precharge
timestamp all changed, refuting "the state of every bank is exactly as it
was before the command was attempted" for precharge-all. -/
theorem C1_counterexample :
    let m0 := (DRAMStateMachine.init two_bank_spec).update_time 0
    let s1 := m0.execute_activate 0 1 5
    let m1 := s1.2.update_time 200
    let r := execute_command m1
      { timestamp := 200, command := CommandType.PREA, rank := some 0 } 0 0
    s1.1 = none ∧
    r.1 = some DRAMError.bankAlreadyIdle ∧
    (m1.get_bank_info 0 1).state = BankState.ACTIVE ∧
    (m1.get_bank_info 0 1).open_row = some 5 ∧
    (r.2.get_bank_info 0 1).state = BankState.IDLE ∧
    (r.2.get_bank_info 0 1).open_row = none ∧
    (r.2.get_bank_info 0 1).last_precharge_time = 200 ∧
    r.2.get_bank_info 0 1 ≠ m1.get_bank_info 0 1 := by
  norm_num +decide [DRAMStateMachine.init, DRAMStateMachine.update_time,
    DRAMStateMachine.execute_activate, DRAMStateMachine.execute_precharge,
    DRAMStateMachine.get_bank_info, DRAMStateMachine.set_bank,
    DRAMStateMachine.bank_index, can_activate, can_precharge,
    execute_command, two_bank_spec, List.getD_cons_zero, List.getD_cons_succ,
    List.range_succ]

/-- Accumulating into a non-empty prefix in the per-bank scan just
prepends that prefix. -/
lemma prea_scan_foldl_append (rank : Nat) (l : List Nat) :
    ∀ (p : List (Option DRAMError)) (m : DRAMStateMachine),
      l.foldl (fun acc b =>
          let r := acc.2.execute_precharge rank b
          (acc.1 ++ [r.1], r.2)) (p, m) =
        (p ++ (l.foldl (fun acc b =>
            let r := acc.2.execute_precharge rank b
            (acc.1 ++ [r.1], r.2)) ([], m)).1,
         (l.foldl (fun acc b =>
            let r := acc.2.execute_precharge rank b
            (acc.1 ++ [r.1], r.2)) ([], m)).2) := by
  induction l with
  | nil => intro p m; simp
  | cons b l ih =>
      intro p m
      simp only [List.foldl_cons]
      rw [ih (p ++ [(m.execute_precharge rank b).1]) (m.execute_precharge rank b).2,
        ih ([] ++ [(m.execute_precharge rank b).1]) (m.execute_precharge rank b).2]
      simp

/-- Overwriting a variable at each `some` of a list is keeping the last
`some` (or the initial `none`). -/
lemma prea_last_error (l : List (Option DRAMError)) :
    l.foldl (fun a e => if e.isSome then e else a) none = last_some l := by
  induction l using List.reverseRecOn with
  | nil => rfl
  | append_singleton l e ih =>
      rw [List.foldl_append]
      simp only [List.foldl_cons, List.foldl_nil]
      cases e with
      | some v => simp [last_some]
      | none => simpa [last_some] using ih

/-- The precharge-all fold equals the per-bank scan, with the reported
error recomputed as the last failure. -/
lemma prea_foldl_eq (rank : Nat) : ∀ (l : List Nat) (e0 : Option DRAMError)
    (m : DRAMStateMachine),
    l.foldl (fun acc b =>
        let r := acc.2.execute_precharge rank b
        (if r.1.isSome then r.1 else acc.1, r.2)) (e0, m) =
      ((l.foldl (fun acc b =>
          let r := acc.2.execute_precharge rank b
          (acc.1 ++ [r.1], r.2)) ([], m)).1.foldl
            (fun a e => if e.isSome then e else a) e0,
       (l.foldl (fun acc b =>
          let r := acc.2.execute_precharge rank b
          (acc.1 ++ [r.1], r.2)) ([], m)).2) := by
  intro l
  induction l with
  | nil => intro e0 m; rfl
  | cons b l ih =>
      intro e0 m
      simp only [List.foldl_cons]
      rw [ih]
      rw [prea_scan_foldl_append rank l ([] ++ [(m.execute_precharge rank b).1])
        (m.execute_precharge rank b).2]
      simp

/-- C3 (amended): precharge-all attempts a precharge on every bank of the
rank in index order, still attempting the remaining banks after a
failure (the final machine is the full sequential scan), and it reports
failure exactly when some bank failed, carrying the error of the last
failing bank (the highest-indexed bank whose precharge failed). -/
theorem C3_prea_last_failure (m : DRAMStateMachine) (cmd : Command)
    (rank bank : Nat) (h : cmd.command = CommandType.PREA) :
    (execute_command m cmd rank bank).2 = (prea_scan m rank).2 ∧
    (execute_command m cmd rank bank).1 = last_some (prea_scan m rank).1 := by
  simp only [execute_command, h]
  rw [prea_foldl_eq]
  exact ⟨rfl, prea_last_error _⟩

/-- Witness for C3: the amended characterization instantiated on a fresh
two-bank machine. -/
theorem C3_prea_last_failure_witness :
    (execute_command (DRAMStateMachine.init two_bank_spec)
       { timestamp := 0, command := CommandType.PREA } 0 0).2 =
      (prea_scan (DRAMStateMachine.init two_bank_spec) 0).2 ∧
    (execute_command (DRAMStateMachine.init two_bank_spec)
       { timestamp := 0, command := CommandType.PREA } 0 0).1 =
      last_some (prea_scan (DRAMStateMachine.init two_bank_spec) 0).1 :=
  C3_prea_last_failure (DRAMStateMachine.init two_bank_spec)
    { timestamp := 0, command := CommandType.PREA } 0 0 rfl

/-- C3 counterexample: activate bank 1 at time 0, then precharge-all at
time 10 with tRAS = 32 ns.  Bank 0 (the first failing bank) fails with
"Bank already idle"; bank 1 fails with the tRAS violation.  The command
reports the tRAS violation of bank 1 — the last failing bank — not the
first failing bank's error, refuting the claim. -/
theorem C3_counterexample :
    let m0 := (DRAMStateMachine.init two_bank_spec).update_time 0
    let s1 := m0.execute_activate 0 1 5
    let m1 := s1.2.update_time 10
    let r := execute_command m1
      { timestamp := 10, command := CommandType.PREA, rank := some 0 } 0 0
    s1.1 = none ∧
    (m1.execute_precharge 0 0).1 = some DRAMError.bankAlreadyIdle ∧
    r.1 = some (DRAMError.trasViolation 10 32) ∧
    some (DRAMError.trasViolation 10 32) ≠ some DRAMError.bankAlreadyIdle := by
  norm_num +decide [DRAMStateMachine.init, DRAMStateMachine.update_time,
    DRAMStateMachine.execute_activate, DRAMStateMachine.execute_precharge,
    DRAMStateMachine.get_bank_info, DRAMStateMachine.set_bank,
    DRAMStateMachine.bank_index, can_activate, can_precharge,
    execute_command, two_bank_spec, List.getD_cons_zero, List.getD_cons_succ,
    List.range_succ]

/-- C2 (amended): for a read or write processed with a burst length
(explicit or defaulted, Python-falsy zero falling back to the
architecture default), the dynamic I/O energy
`0.5 × C_DQ × V_IO² × burst_length × data_width × 0.5` (pJ, divided by
1000 into nJ) is folded into the read-energy (resp. write-energy) core
counter together with the core term, and the dynamic-I/O counter is not
incremented. -/
theorem C2_io_folded_into_core (spec : MemorySpec) (pcalc : PowerCalculator)
    (rank bank : Nat) (t next : ℚ) (row column : Option Nat)
    (burst_length : Option Nat) (hnext : next ≠ 0) :
    ((process_command spec pcalc CommandType.RD rank bank t (some next)
        row column burst_length).2.result.dynamic_io_energy =
      pcalc.result.dynamic_io_energy ∧
     (process_command spec pcalc CommandType.RD rank bank t (some next)
        row column burst_length).2.result.read_energy =
      pcalc.result.read_energy + calculate_read_power spec (next - t)
        (some (bl_or_default burst_length spec.architecture.burst_length))) ∧
    ((process_command spec pcalc CommandType.WR rank bank t (some next)
        row column burst_length).2.result.dynamic_io_energy =
      pcalc.result.dynamic_io_energy ∧
     (process_command spec pcalc CommandType.WR rank bank t (some next)
        row column burst_length).2.result.write_energy =
      pcalc.result.write_energy + calculate_write_power spec (next - t)
        (some (bl_or_default burst_length spec.architecture.burst_length))) ∧
    (∀ bl : Nat, bl ≠ 0 →
      calculate_read_power spec (next - t) (some bl) =
        (spec.power.idd4r - spec.power.idd3n) * spec.power.vdd *
            (next - t) / 1000 +
          1/2 * dq_capacitance * spec.power.vddq ^ 2 *
            ((bl : ℚ) * (spec.architecture.width : ℚ) * switching_activity)
            / 1000 ∧
      calculate_write_power spec (next - t) (some bl) =
        (spec.power.idd4w - spec.power.idd3n) * spec.power.vdd *
            (next - t) / 1000 +
          1/2 * dq_capacitance * spec.power.vddq ^ 2 *
            ((bl : ℚ) * (spec.architecture.width : ℚ) * switching_activity)
            / 1000) := by
  refine ⟨⟨?_, ?_⟩, ⟨?_, ?_⟩, ?_⟩
  · simp [process_command]
  · simp [process_command, if_pos hnext]
  · simp [process_command]
  · simp [process_command, if_pos hnext]
  · intro bl hbl
    constructor
    · simp [calculate_read_power, calculate_io_power_read, hbl]
    · simp [calculate_write_power, calculate_io_power_write,
        calculate_io_power_read, hbl]

/-- Witness for C2 (amended): the statement instantiated on the test
fixture with a burst-16 read/write of duration 10 ns. -/
theorem C2_io_folded_into_core_witness :
    ((process_command fixture_spec {} CommandType.RD 0 0 0 (some 10)
        none none (some 16)).2.result.dynamic_io_energy =
      ({} : PowerCalculator).result.dynamic_io_energy ∧
     (process_command fixture_spec {} CommandType.RD 0 0 0 (some 10)
        none none (some 16)).2.result.read_energy =
      ({} : PowerCalculator).result.read_energy +
        calculate_read_power fixture_spec (10 - 0)
          (some (bl_or_default (some 16) fixture_spec.architecture.burst_length))) ∧
    ((process_command fixture_spec {} CommandType.WR 0 0 0 (some 10)
        none none (some 16)).2.result.dynamic_io_energy =
      ({} : PowerCalculator).result.dynamic_io_energy ∧
     (process_command fixture_spec {} CommandType.WR 0 0 0 (some 10)
        none none (some 16)).2.result.write_energy =
      ({} : PowerCalculator).result.write_energy +
        calculate_write_power fixture_spec (10 - 0)
          (some (bl_or_default (some 16) fixture_spec.architecture.burst_length))) ∧
    (∀ bl : Nat, bl ≠ 0 →
      calculate_read_power fixture_spec (10 - 0) (some bl) =
        (fixture_spec.power.idd4r - fixture_spec.power.idd3n) *
            fixture_spec.power.vdd * (10 - 0) / 1000 +
          1/2 * dq_capacitance * fixture_spec.power.vddq ^ 2 *
            ((bl : ℚ) * (fixture_spec.architecture.width : ℚ) *
              switching_activity) / 1000 ∧
      calculate_write_power fixture_spec (10 - 0) (some bl) =
        (fixture_spec.power.idd4w - fixture_spec.power.idd3n) *
            fixture_spec.power.vdd * (10 - 0) / 1000 +
          1/2 * dq_capacitance * fixture_spec.power.vddq ^ 2 *
            ((bl : ℚ) * (fixture_spec.architecture.width : ℚ) *
              switching_activity) / 1000) :=
  C2_io_folded_into_core fixture_spec {} 0 0 0 10 none none (some 16)
    (by norm_num)

/-- C8: for the trace [refresh @ 0, end-of-simulation @ 10000 cycles] on
the datasheet fixture, the refresh succeeds (no errors: the tREFI gate
passes for a first refresh at time 0 against the −1e9 initial
last-refresh time) and the finalized refresh energy is exactly
`I_DD5B × V_DD × tRFC / 1000` = 80 × 1.1 × 280 / 1000 = 24.64 nJ
(= 616/25). -/
theorem C8_refresh_scenario :
    (simulate fixture_spec refresh_trace).2 = [] ∧
    (simulate fixture_spec refresh_trace).1.refresh_energy =
      fixture_spec.power.idd5b * fixture_spec.power.vdd *
        fixture_spec.timing.trfc / 1000 ∧
    (simulate fixture_spec refresh_trace).1.refresh_energy = 616/25 := by
  have hrep : List.replicate 4 ({} : BankStateInfo) = [{}, {}, {}, {}] := rfl
  norm_num +decide [simulate, simulate_loop, sort_by_timestamp,
    List.insertionSort, List.orderedInsert, cmd_le, DRAMStateMachine.init,
    DRAMStateMachine.update_time, execute_command,
    DRAMStateMachine.execute_refresh, can_refresh, process_command,
    calculate_refresh_power, accumulate_background_power,
    calculate_background_power, finalize, fixture_spec, refresh_trace,
    hrep, List.countP_cons, List.countP_nil, List.getD_cons_zero,
    List.getD_cons_succ, List.head?_cons, List.head?_nil]

/-- C2 counterexample: the trace [activate @ 0, read burst 16 @ 50,
end @ 1000 cycles] on the datasheet fixture runs without errors and its
burst-16 read carries a positive dynamic I/O term (1936/3125 nJ =
0.61952 nJ), yet the finalized `dynamic_io_energy` counter is 0: the I/O
term was added into `read_energy` (core 8151/250 nJ plus the I/O term),
refuting the claim that it is accumulated into the dynamic-I/O counter
separately from the read-energy counter. -/
theorem C2_counterexample :
    (simulate fixture_spec read_trace).2 = [] ∧
    calculate_io_power_read fixture_spec 16 (1482/5) = 1936/3125 ∧
    (0 : ℚ) < 1936/3125 ∧
    (simulate fixture_spec read_trace).1.dynamic_io_energy = 0 ∧
    (simulate fixture_spec read_trace).1.read_energy =
      8151/250 + 1936/3125 := by
  have hrep : List.replicate 4 ({} : BankStateInfo) = [{}, {}, {}, {}] := rfl
  norm_num +decide [simulate, simulate_loop, sort_by_timestamp,
    List.insertionSort, List.orderedInsert, cmd_le, DRAMStateMachine.init,
    DRAMStateMachine.update_time, execute_command,
    DRAMStateMachine.execute_activate, DRAMStateMachine.execute_read,
    DRAMStateMachine.get_bank_info, DRAMStateMachine.set_bank,
    DRAMStateMachine.bank_index, can_activate, can_read, process_command,
    calculate_activation_power, calculate_read_power, calculate_io_power_read,
    calculate_termination_power, bl_or_default, odt_resistance,
    dq_capacitance, switching_activity, accumulate_background_power,
    calculate_background_power, finalize, fixture_spec, read_trace, hrep,
    List.countP_cons, List.countP_nil, List.getD_cons_zero,
    List.getD_cons_succ, List.head?_cons, List.head?_nil]

/-- Looking up a bank never yields a power-down state when no bank holds
one (the out-of-range default is idle). -/
lemma get_bank_info_not_pdn (m : DRAMStateMachine) (h : no_pdn_banks m)
    (rank bank : Nat) :
    (m.get_bank_info rank bank).state ≠ BankState.ACTIVE_PDN ∧
    (m.get_bank_info rank bank).state ≠ BankState.PRE_PDN := by
  unfold DRAMStateMachine.get_bank_info
  rw [List.getD_eq_getElem?_getD]
  cases hx : m.banks[m.bank_index rank bank]? with
  | none => exact ⟨by decide, by decide⟩
  | some x =>
      simp only [Option.getD_some]
      exact h x (List.getElem?_mem hx)

/-- Updating one bank with a non-power-down record preserves the
invariant. -/
lemma set_bank_no_pdn (m : DRAMStateMachine) (rank bank : Nat)
    (info : BankStateInfo) (h : no_pdn_banks m)
    (hi : info.state ≠ BankState.ACTIVE_PDN ∧
      info.state ≠ BankState.PRE_PDN) :
    no_pdn_banks (m.set_bank rank bank info) := by
  intro b hb
  simp only [DRAMStateMachine.set_bank] at hb
  rcases List.mem_or_eq_of_mem_set hb with hb' | rfl
  · exact h b hb'
  · exact hi

/-- Activate never produces a power-down state. -/
lemma execute_activate_no_pdn (m : DRAMStateMachine) (rank bank row : Nat)
    (h : no_pdn_banks m) :
    no_pdn_banks (m.execute_activate rank bank row).2 := by
  unfold DRAMStateMachine.execute_activate
  cases hc : can_activate m.spec (m.get_bank_info rank bank) m.current_time with
  | some e => simpa only [hc] using h
  | none =>
      simp only [hc]
      exact set_bank_no_pdn m rank bank _ h ⟨by simp, by simp⟩

/-- Read never produces a power-down state. -/
lemma execute_read_no_pdn (m : DRAMStateMachine) (rank bank : Nat)
    (h : no_pdn_banks m) :
    no_pdn_banks (m.execute_read rank bank).2 := by
  unfold DRAMStateMachine.execute_read
  cases hc : can_read m.spec (m.get_bank_info rank bank) m.current_time with
  | some e => simpa only [hc] using h
  | none =>
      simp only [hc]
      exact set_bank_no_pdn m rank bank _ h
        (by simpa using get_bank_info_not_pdn m h rank bank)

/-- Write never produces a power-down state. -/
lemma execute_write_no_pdn (m : DRAMStateMachine) (rank bank : Nat)
    (h : no_pdn_banks m) :
    no_pdn_banks (m.execute_write rank bank).2 := by
  unfold DRAMStateMachine.execute_write
  cases hc : can_write m.spec (m.get_bank_info rank bank) m.current_time with
  | some e => simpa only [hc] using h
  | none =>
      simp only [hc]
      exact set_bank_no_pdn m rank bank _ h
        (by simpa using get_bank_info_not_pdn m h rank bank)

/-- Precharge never produces a power-down state. -/
lemma execute_precharge_no_pdn (m : DRAMStateMachine) (rank bank : Nat)
    (h : no_pdn_banks m) :
    no_pdn_banks (m.execute_precharge rank bank).2 := by
  unfold DRAMStateMachine.execute_precharge
  cases hc : can_precharge m.spec (m.get_bank_info rank bank) m.current_time with
  | some e => simpa only [hc] using h
  | none =>
      simp only [hc]
      exact set_bank_no_pdn m rank bank _ h ⟨by simp, by simp⟩

/-- Refresh never produces a power-down state. -/
lemma execute_refresh_no_pdn (m : DRAMStateMachine) (h : no_pdn_banks m) :
    no_pdn_banks (m.execute_refresh).2 := by
  unfold DRAMStateMachine.execute_refresh
  cases hc : can_refresh m.spec m.current_time m.last_refresh_time with
  | some e => simpa only [hc] using h
  | none =>
      simp only [hc]
      intro b hb
      simp only [List.mem_map] at hb
      obtain ⟨a1, ⟨a0, ha0, rfl⟩, rfl⟩ := hb
      rcases h a0 ha0 with ⟨h1, h2⟩
      split_ifs <;> simp_all

/-- The precharge-all fold never produces a power-down state. -/
lemma prea_foldl_no_pdn (rank : Nat) (l : List Nat) :
    ∀ (acc : Option DRAMError × DRAMStateMachine), no_pdn_banks acc.2 →
      no_pdn_banks ((l.foldl (fun acc b =>
        let r := acc.2.execute_precharge rank b
        (if r.1.isSome then r.1 else acc.1, r.2)) acc)).2 := by
  induction l with
  | nil => intro acc h; exact h
  | cons b l ih =>
      intro acc h
      simp only [List.foldl_cons]
      exact ih _ (execute_precharge_no_pdn acc.2 rank b h)

/-- No dispatched command ever puts a bank into a power-down state. -/
lemma execute_command_no_pdn (m : DRAMStateMachine) (cmd : Command)
    (rank bank : Nat) (h : no_pdn_banks m) :
    no_pdn_banks (execute_command m cmd rank bank).2 := by
  cases hcmd : cmd.command with
  | ACT =>
      cases hrow : cmd.row with
      | none => simpa [execute_command, hcmd, hrow] using h
      | some row =>
          simp only [execute_command, hcmd, hrow]
          exact execute_activate_no_pdn m rank bank row h
  | RD =>
      simp only [execute_command, hcmd]
      exact execute_read_no_pdn m rank bank h
  | WR =>
      simp only [execute_command, hcmd]
      exact execute_write_no_pdn m rank bank h
  | PRE =>
      simp only [execute_command, hcmd]
      exact execute_precharge_no_pdn m rank bank h
  | PREA =>
      simp only [execute_command, hcmd]
      exact prea_foldl_no_pdn rank _ (none, m) h
  | REF =>
      simp only [execute_command, hcmd]
      exact execute_refresh_no_pdn m h
  | REFPB =>
      cases hb : cmd.bank with
      | none => simpa [execute_command, hcmd, hb] using h
      | some b =>
          simp only [execute_command, hcmd, hb]
          exact execute_refresh_no_pdn m h
  | PDN => simpa [execute_command, hcmd] using h
  | SR => simpa [execute_command, hcmd] using h
  | END_OF_SIMULATION => simpa [execute_command, hcmd] using h

/-- Processing a command never touches the power-down counter. -/
lemma process_command_powerdown_eq (spec : MemorySpec)
    (pcalc : PowerCalculator) (cmd_type : CommandType) (rank bank : Nat)
    (t : ℚ) (next : Option ℚ) (row column : Option Nat)
    (bl : Option Nat) :
    (process_command spec pcalc cmd_type rank bank t next row column
      bl).2.result.powerdown_energy = pcalc.result.powerdown_energy := by
  cases cmd_type <;> simp [process_command]

/-- Background accumulation never touches the power-down counter. -/
lemma accumulate_background_powerdown_eq (spec : MemorySpec)
    (machine : DRAMStateMachine) (pcalc : PowerCalculator) (s e : ℚ) :
    (accumulate_background_power spec machine pcalc s
      e).result.powerdown_energy = pcalc.result.powerdown_energy := by
  unfold accumulate_background_power
  dsimp only
  split_ifs <;> simp

/-- The simulation loop preserves "no bank in a power-down state and a
zero power-down counter" from any starting state. -/
lemma simulate_loop_no_pdn (spec : MemorySpec) :
    ∀ (commands : List Command) (st : SimState) (lt : ℚ),
      no_pdn_banks st.machine → st.pcalc.result.powerdown_energy = 0 →
      no_pdn_banks (simulate_loop spec commands st lt).1.machine ∧
      (simulate_loop spec commands st lt).1.pcalc.result.powerdown_energy
        = 0 := by
  intro commands
  induction commands with
  | nil => intro st lt h1 h2; exact ⟨h1, h2⟩
  | cons cmd rest ih =>
      intro st lt h1 h2
      by_cases heos : cmd.command = CommandType.END_OF_SIMULATION
      · simp only [simulate_loop, if_pos heos]
        exact ⟨h1, by rw [accumulate_background_powerdown_eq]; exact h2⟩
      · simp only [simulate_loop, if_neg heos]
        have hm1 : no_pdn_banks
            (st.machine.update_time ((cmd.timestamp : ℚ) * spec.timing.tck)) := h1
        have hcalc1 : (if (cmd.timestamp : ℚ) * spec.timing.tck > lt then
            accumulate_background_power spec st.machine st.pcalc lt
              ((cmd.timestamp : ℚ) * spec.timing.tck)
          else st.pcalc).result.powerdown_energy = 0 := by
          split_ifs
          · rw [accumulate_background_powerdown_eq]; exact h2
          · exact h2
        cases hr : (execute_command
            (st.machine.update_time ((cmd.timestamp : ℚ) * spec.timing.tck))
            cmd (cmd.rank.getD 0) (cmd.bank.getD 0)).1 with
        | some e =>
            simp only [hr]
            exact ih _ _ (execute_command_no_pdn _ cmd _ _ hm1) hcalc1
        | none =>
            simp only [hr]
            refine ih _ _ (execute_command_no_pdn _ cmd _ _ hm1) ?_
            simp only [process_command_powerdown_eq]
            exact hcalc1

/-- The ten counters other than the one being finalized pass through
`finalize` unchanged; in particular the power-down counter does. -/
lemma finalize_powerdown_eq (r : PowerResult) (t : ℚ) :
    (finalize r t).powerdown_energy = r.powerdown_energy := by
  simp [finalize]

/-- A freshly initialized machine has no bank in a power-down state. -/
lemma init_no_pdn (spec : MemorySpec) :
    no_pdn_banks (DRAMStateMachine.init spec) := by
  intro b hb
  have hb' := List.eq_of_mem_replicate hb
  subst hb'
  exact ⟨by decide, by decide⟩

/-- C10: power-down states are unreachable and the power-down counter is
never charged: from any state with no bank in `ACTIVE_PDN`/`PRE_PDN` and
a zero power-down counter, the simulation loop preserves both; power-down
entry and self-refresh entry commands report success without any
state-machine effect; and every finalized simulation result has
`powerdown_energy = 0`, for every input trace. -/
theorem C10_no_powerdown :
    (∀ (spec : MemorySpec) (commands : List Command) (st : SimState)
        (lt : ℚ),
      no_pdn_banks st.machine → st.pcalc.result.powerdown_energy = 0 →
      no_pdn_banks (simulate_loop spec commands st lt).1.machine ∧
      (simulate_loop spec commands st lt).1.pcalc.result.powerdown_energy
        = 0) ∧
    (∀ (m : DRAMStateMachine) (cmd : Command) (rank bank : Nat),
      cmd.command = CommandType.PDN ∨ cmd.command = CommandType.SR →
      execute_command m cmd rank bank = (none, m)) ∧
    (∀ (spec : MemorySpec) (commands : List Command),
      (simulate spec commands).1.powerdown_energy = 0) := by
  refine ⟨simulate_loop_no_pdn, ?_, ?_⟩
  · intro m cmd rank bank hc
    rcases hc with h | h <;> simp [execute_command, h]
  · intro spec commands
    by_cases h : commands = []
    · simp [simulate, h]
    · simp only [simulate, if_neg h]
      rw [finalize_powerdown_eq]
      exact (simulate_loop_no_pdn spec (sort_by_timestamp commands)
        { machine := DRAMStateMachine.init spec, pcalc := {}, errors := [] }
        0 (init_no_pdn spec) rfl).2

/-- Witness for C10: the three conjuncts instantiated on the datasheet
fixture — the loop invariant from the initial state on the empty command
list, a power-down entry command with no effect, and a concrete finalized
run with a zero power-down counter. -/
theorem C10_no_powerdown_witness :
    (no_pdn_banks (simulate_loop fixture_spec []
        { machine := DRAMStateMachine.init fixture_spec, pcalc := {},
          errors := [] } 0).1.machine ∧
      (simulate_loop fixture_spec []
        { machine := DRAMStateMachine.init fixture_spec, pcalc := {},
          errors := [] } 0).1.pcalc.result.powerdown_energy = 0) ∧
    execute_command (DRAMStateMachine.init fixture_spec)
      { timestamp := 0, command := CommandType.PDN } 0 0 =
      (none, DRAMStateMachine.init fixture_spec) ∧
    (simulate fixture_spec refresh_trace).1.powerdown_energy = 0 :=
  ⟨C10_no_powerdown.1 fixture_spec []
      { machine := DRAMStateMachine.init fixture_spec, pcalc := {},
        errors := [] } 0 (init_no_pdn fixture_spec) rfl,
   C10_no_powerdown.2.1 (DRAMStateMachine.init fixture_spec)
      { timestamp := 0, command := CommandType.PDN } 0 0 (Or.inl rfl),
   C10_no_powerdown.2.2 fixture_spec refresh_trace⟩

end DDR5
